import Mathlib

/-!
Verification development for the Linux device-driver evaluation script
(`evaluate_drivers.py`).  The script's text-processing, scoring and
aggregation pipeline is shallowly embedded here: Python strings are
modelled as `List Char`, Python floats as exact rationals (`ℚ`), and one
invocation of the script is modelled by explicit environment records that
carry the outcomes of the external commands (make, bear, checkpatch,
clang-tidy, insmod, rmmod, dmesg) the script shells out to.
-/

namespace DriverEval

/-- Whitespace test matching Python's regex class `\s`
(space, tab, newline, carriage return, vertical tab, form feed). -/
def pyIsSpace (c : Char) : Bool :=
  c = ' ' || c = '\t' || c = '\n' || c = '\r' || c = '\x0b' || c = '\x0c'

/-- Lower-casing of a whole string, used to model the `re.IGNORECASE` flag
and Python's `str.lower()`. -/
def lower (l : List Char) : List Char := l.map Char.toLower

/-- Split a string at newline characters; models the line structure that
`re.MULTILINE` imposes (`^`/`$` match at `\n` boundaries).
`splitNl "a\nb" = ["a", "b"]` and the empty string yields one empty line. -/
def splitNl : List Char → List (List Char)
  | [] => [[]]
  | c :: rest =>
    let r := splitNl rest
    if c = '\n' then [] :: r
    else
      match r with
      | [] => [[c]]
      | h :: t => (c :: h) :: t

/-- Python's `str.strip()`: remove leading and trailing whitespace. -/
def pyStrip (l : List Char) : List Char :=
  ((l.dropWhile pyIsSpace).reverse.dropWhile pyIsSpace).reverse

/-- Substring test: `containsSub n h` models Python's `n in h` /
`re.search(re.escape(n), h)` (case handled by the caller via `lower`). -/
def containsSub (n : List Char) : List Char → Bool
  | [] => n.isPrefixOf []
  | c :: rest => n.isPrefixOf (c :: rest) || containsSub n rest

/-!
## A small matching machine for the fixed regular expressions of the script

Every regex the scoring step feeds to `re.findall` is an alternation of
sequences built from literals, the any-character class `.` (one character,
not `\n`), a trailing greedy `.*` (consume the rest of the line) and the
trailing greedy `.*:` (consume through the last `:` of the current line).
`Tok` captures exactly those shapes.
-/

/-- One token of a matchable pattern. -/
inductive Tok where
  | lit (s : List Char)
  | anyChar
  | dotStarColon
  | dotStarEOL
deriving Repr

/-- Position of the last `:` of the current line (up to the next `\n`),
used for the greedy `.*:` token. -/
def lastColonPos (l : List Char) : Option Nat :=
  let line := l.takeWhile (· ≠ '\n')
  match line.reverse.findIdx? (· = ':') with
  | none => none
  | some j => some (line.length - 1 - j)

/-- Match a token sequence at the head of `l`; returns the remaining
suffix on success.  Greedy tokens only occur in trailing position in the
script's patterns, so no backtracking is needed. -/
def matchToks : List Tok → List Char → Option (List Char)
  | [], l => some l
  | Tok.lit s :: ps, l =>
    if s.isPrefixOf l then matchToks ps (l.drop s.length) else none
  | Tok.anyChar :: ps, l =>
    match l with
    | [] => none
    | c :: rest => if c = '\n' then none else matchToks ps rest
  | Tok.dotStarColon :: ps, l =>
    match lastColonPos l with
    | none => none
    | some i => matchToks ps (l.drop (i + 1))
  | Tok.dotStarEOL :: ps, l => matchToks ps (l.dropWhile (· ≠ '\n'))

/-- Leftmost, non-overlapping scan counting matches of any of the
alternative patterns, as `len(re.findall(p1|p2|..., s))` does.  The fuel
argument (initially the length of the input) makes the recursion
structural; every pattern used in the script starts with a non-empty
literal, so each hit consumes at least one character and the fuel never
runs out. -/
def countPatAux (alts : List (List Tok)) : Nat → List Char → Nat
  | 0, _ => 0
  | _, [] => 0
  | fuel + 1, c :: rest =>
    match List.findSome? (fun p => matchToks p (c :: rest)) alts with
    | some rem => 1 + countPatAux alts fuel rem
    | none => countPatAux alts fuel rest

/-- Count of non-overlapping matches of an alternation over `l`. -/
def countPat (alts : List (List Tok)) (l : List Char) : Nat :=
  countPatAux alts l.length l

/-!
## Compiler-output parsing (step 6.1 of `evaluate_char_rw_driver`)

`compile_errors = len(re.findall(r'^(?!.*warning:.*$).*:\s*(error|fatal error):.*$', out, MULTILINE | IGNORECASE))`
`compile_warnings = len(re.findall(r'^\s*.*:\d+:\d+:\s*warning:.*$', out, MULTILINE | IGNORECASE))`

Under `MULTILINE` every match starts at a line start (`^`), the `.` and
`\S` pieces stay inside one line, and the final `$` closes the line the
match lands in — but `\s*` also matches `\n`, so the whitespace skip
between the `:` and the `error:` / `warning:` marker may cross line
boundaries and a single match may span several lines.  `re.findall`
counts non-overlapping matches left to right, resuming after each match
(that is, after the line the marker landed in), and the greedy `.*`
before the `:` commits the engine to the rightmost colon of the start
line that completes a match.  The scanners below implement exactly that:
a loop over line starts that, per line, finds the rightmost viable
colon, follows the (possibly line-crossing) whitespace skip, and
continues after the landing line.  `\s` and `\d` are modelled over
their ASCII ranges.
-/

/-- Test for `:\s*(error|fatal error):` starting at the head of `l`
(the head must be the `:`): skip the maximal whitespace run after the
colon — which may cross newlines — and check for the marker.  Input
already lower-cased. -/
def errAfterColon : List Char → Bool
  | ':' :: rest =>
    let r := rest.dropWhile pyIsSpace
    "error:".data.isPrefixOf r || "fatal error:".data.isPrefixOf r
  | _ => false

/-- Scan for `:\s*(error|fatal error):` anywhere in `l`; when `l` spans
several lines the whitespace skip after the colon may cross newlines. -/
def containsErrMarker : List Char → Bool
  | [] => false
  | c :: rest => errAfterColon (c :: rest) || containsErrMarker rest

/-- The per-line reading of the compile-error regex, as the spec's
"line matching the error marker" property uses it: the line does not
contain `warning:` (the negative lookahead) and contains
`:<ws>*(error|fatal error):` within the line, case-insensitively.  The
program applies the regex to the whole output, where `\s*` may cross
line boundaries, so this per-line predicate under-approximates the real
match count (see the C9 counterexample below). -/
def compileErrorLine (line : List Char) : Bool :=
  let low := lower line
  !(containsSub "warning:".data low) && containsErrMarker low

/-- Match attempt for the tail `:\s*(error|fatal error):.*$` of the
compile-error regex at one colon: on success returns the remaining input
after the whole match, i.e. the suffix starting at the newline ending
the line the marker landed in. -/
def errMatchAt : List Char → Option (List Char)
  | ':' :: u =>
    if errAfterColon (':' :: u) then
      some ((u.dropWhile pyIsSpace).dropWhile (· ≠ '\n'))
    else none
  | _ => none

/-- Match attempt for the tail `:\d+:\d+:\s*warning:.*$` of the
compile-warning regex at one colon; on success returns the suffix after
the landing line.  `\d+` is deterministic: the maximal digit run must be
followed by the literal `:`. -/
def warnMatchAt : List Char → Option (List Char)
  | ':' :: u =>
    let d1 := u.takeWhile Char.isDigit
    if d1.isEmpty then none
    else
      match u.drop d1.length with
      | ':' :: u2 =>
        let d2 := u2.takeWhile Char.isDigit
        if d2.isEmpty then none
        else
          match u2.drop d2.length with
          | ':' :: u3 =>
            let t := u3.dropWhile pyIsSpace
            if "warning:".data.isPrefixOf t then some (t.dropWhile (· ≠ '\n'))
            else none
          | _ => none
      | _ => none
  | _ => none

/-- Match attempt for the tail `:\d+:\d+:\s*(warning|error):` of the
clang-tidy regex at one colon; on success returns the suffix after the
landing line. -/
def tidyMatchAt : List Char → Option (List Char)
  | ':' :: u =>
    let d1 := u.takeWhile Char.isDigit
    if d1.isEmpty then none
    else
      match u.drop d1.length with
      | ':' :: u2 =>
        let d2 := u2.takeWhile Char.isDigit
        if d2.isEmpty then none
        else
          match u2.drop d2.length with
          | ':' :: u3 =>
            let t := u3.dropWhile pyIsSpace
            if "warning:".data.isPrefixOf t || "error:".data.isPrefixOf t then
              some (t.dropWhile (· ≠ '\n'))
            else none
          | _ => none
      | _ => none
  | _ => none

/-- Greedy `.*` before the colon: try every position of the current line
(stopping at the newline) and return the result of the rightmost
position where `test` succeeds — the first success the backtracking
engine finds. -/
def scanLineRight (test : List Char → Option (List Char)) : List Char → Option (List Char)
  | [] => none
  | c :: rest =>
    if c = '\n' then none
    else
      match scanLineRight test rest with
      | some r => some r
      | none => test (c :: rest)

/-- Greedy `\S+` before the colon (clang-tidy regex): like
`scanLineRight` but confined to the current non-whitespace run. -/
def scanRunRight (test : List Char → Option (List Char)) : List Char → Option (List Char)
  | [] => none
  | c :: rest =>
    if pyIsSpace c then none
    else
      match scanRunRight test rest with
      | some r => some r
      | none => test (c :: rest)

/-- One match attempt of the compile-error regex at a line start: the
negative lookahead `(?!.*warning:.*$)` rejects a start line containing
`warning:`; otherwise the rightmost colon of the start line completing
the pattern wins (`.*` may be empty, so the colon may sit anywhere in
the line). -/
def tryErrorLine (s : List Char) : Option (List Char) :=
  if containsSub "warning:".data (s.takeWhile (· ≠ '\n')) then none
  else scanLineRight errMatchAt s

/-- One match attempt of the clang-tidy regex at a line start: skip the
line's leading whitespace, enter its first non-whitespace run (`\S+`;
one character is consumed first so a separator colon leaves a non-empty
`\S+` before it), and search the run's colons rightmost-first.  (In
Python the leading `\s*` may also cross whitespace-only lines; such
lines cannot match on their own and the landing line is the same either
way, so the count is unaffected.) -/
def tryTidyLine (s : List Char) : Option (List Char) :=
  match s.dropWhile (fun c => pyIsSpace c && !(c = '\n')) with
  | [] => none
  | c :: rest => if c = '\n' then none else scanRunRight tidyMatchAt rest

/-- The `re.findall` loop for the `MULTILINE`-anchored regexes: at each
line start attempt a match; on success count it and resume after the
line the match landed in (the returned remainder starts at that line's
newline), otherwise move to the next line.  The fuel (initially the
input length) makes the recursion structural; every step consumes at
least one character, so the fuel never runs out. -/
def findallAux (tryLine : List Char → Option (List Char)) : Nat → List Char → Nat
  | 0, _ => 0
  | _, [] => 0
  | fuel + 1, c :: rest =>
    match tryLine (c :: rest) with
    | some r =>
      1 + (match r with
           | _ :: r' => findallAux tryLine fuel r'
           | [] => 0)
    | none =>
      match (c :: rest).dropWhile (· ≠ '\n') with
      | _ :: r' => findallAux tryLine fuel r'
      | [] => 0

/-- Number of compiler-error matches found in a compilation output. -/
def compileErrorsCount (out : List Char) : Nat :=
  findallAux tryErrorLine out.length (lower out)

/-- Number of compiler-warning matches found in a compilation output
(no lookahead; the leading `^\s*.*` admits any in-line prefix, so every
colon of the start line is a candidate). -/
def compileWarningsCount (out : List Char) : Nat :=
  findallAux (fun s => scanLineRight warnMatchAt s) out.length (lower out)

/-!
## clang-tidy output parsing (step 6.3)

`clang_tidy_issues = len(re.findall(r'^\s*\S+:\d+:\d+:\s*(warning|error):', out, MULTILINE | IGNORECASE))`
-/

/-- Number of clang-tidy diagnostic matches in a clang-tidy output. -/
def clangTidyIssuesCount (out : List Char) : Nat :=
  findallAux tryTidyLine out.length (lower out)

/-!
## checkpatch output parsing (step 6.2)

`style_warnings = len(re.findall(r'WARNING:', checkpatch_stdout))` and
likewise `ERROR:` — case-sensitive literal counts.
-/

/-- Count of occurrences of a literal token, modelling
`len(re.findall(literal, s))` without flags. -/
def countLit (tok : List Char) (s : List Char) : Nat :=
  countPat [[Tok.lit tok]] s

/-!
## dmesg scanning (`functional_test_driver`)
-/

/-- Case-insensitive failure indicators searched in the dmesg snapshot
captured after `insmod` (the list `failure_indicators`; every entry is a
literal under `re.search`). -/
def failureIndicators : List (List Char) :=
  ["insmod: error:".data, "no such file or directory".data,
   "invalid module format".data, "unresolved symbol".data,
   "unknown symbol".data, "kernel panic".data, "oops".data,
   "tainted".data]

/-- `any(re.search(p, dmesg, IGNORECASE) for p in failure_indicators)`. -/
def failureDetected (dmesg : List Char) : Bool :=
  let s := lower dmesg
  failureIndicators.any (fun p => containsSub p s)

/-- Detection of a kernel oops:
`re.search(r'kernel (panic|oops|bug):', dmesg, IGNORECASE)`. -/
def oopsInDmesg (dmesg : List Char) : Bool :=
  let s := lower dmesg
  containsSub "kernel panic:".data s || containsSub "kernel oops:".data s ||
    containsSub "kernel bug:".data s

/-- Problem indicators searched in the dmesg snapshot after `rmmod`:
`re.search(r'rmmod: ERROR:|fail|error|Device or resource busy', dmesg, IGNORECASE)`. -/
def unloadProblemDetected (dmesg : List Char) : Bool :=
  let s := lower dmesg
  containsSub "rmmod: error:".data s || containsSub "fail".data s ||
    containsSub "error".data s || containsSub "device or resource busy".data s

/-- Case-insensitive search for an expected printk message:
`re.search(re.escape(msg), dmesg, IGNORECASE)`. -/
def msgFound (msg : List Char) (dmesg : List Char) : Bool :=
  containsSub (lower msg) (lower dmesg)

/-!
## Data model

The dictionaries of the script become records.  `DriverMetrics` mirrors
the `metrics` dictionary built by `evaluate_char_rw_driver`; the
functional-test result dictionary of `functional_test_driver` becomes
`FuncResults`.
-/

/-- The `compilation` sub-dictionary of a metrics record. -/
structure Compilation where
  success : Bool
  errorsCount : Nat
  warningsCount : Nat
  output : List Char
deriving Repr, DecidableEq

/-- The `style` sub-dictionary of a metrics record. -/
structure Style where
  warningsCount : Nat
  errorsCount : Nat
  output : List Char
deriving Repr, DecidableEq

/-- The `static_analysis` sub-dictionary of a metrics record. -/
structure StaticAnalysis where
  issuesCount : Nat
  output : List Char
deriving Repr, DecidableEq

/-- The `functionality` sub-dictionary of a metrics record, after the
functional-test results have been merged into it (`dict.update`); the
dmesg snapshots are kept as the `load`/`unload` capture fields. -/
structure Functionality where
  testAttempted : Bool
  loadSuccess : Bool
  unloadSuccess : Bool
  kernelOopsDetected : Bool
  loadMsgFound : Bool
  unloadMsgFound : Bool
  testPassed : Bool
  dmesgLoad : List Char
  dmesgUnload : List Char
deriving Repr, DecidableEq

/-- The per-driver metrics record (`metrics` in the script).
`overallScore` is the `overall_score` entry, filled in by the scoring
step; Python floats are modelled as exact rationals. -/
structure DriverMetrics where
  filename : List Char
  category : List Char
  compilation : Compilation
  style : Style
  static_analysis : StaticAnalysis
  functionality : Functionality
  overallScore : ℚ
deriving Repr, DecidableEq

/-- Result dictionary of `functional_test_driver`. -/
structure FuncResults where
  loadSuccess : Bool
  unloadSuccess : Bool
  kernelOopsDetected : Bool
  loadDmesg : List Char
  unloadDmesg : List Char
  loadMsgFound : Bool
  unloadMsgFound : Bool
  testPassed : Bool
deriving Repr, DecidableEq

/-- Outcomes of the external commands one call of
`functional_test_driver` observes.  `insmodExit` etc. are the subprocess
exit codes (`-1` encodes command-not-found, as `run_command` returns);
the dmesg fields are the log snapshots read back after each step. -/
structure FuncEnv where
  koExists : Bool
  lsmodExit : Int
  lsmodOut : List Char
  rmmodPreExit : Int
  insmodExit : Int
  dmesgAfterLoad : List Char
  dmesgRecent : List Char
  rmmodExit : Int
  dmesgAfterUnload : List Char
deriving Repr, DecidableEq

/-- Header the script inserts before the extra dmesg capture appended to
`load_dmesg` when `insmod` returned non-zero. -/
def recentHdr : List Char := "\n--- Recent dmesg after failed load ---\n".data

/-- Shallow embedding of `functional_test_driver`.  The module is loaded,
the dmesg snapshot is scanned for failure indicators, an oops and the
expected load message; the unload step runs only when the load succeeded
and no oops was seen; `test_passed` is the final conjunction computed by
the script.  When the `.ko` file is missing the script returns the
all-false result dictionary before doing anything. -/
def functional_test_driver (expectedLoadMsg expectedUnloadMsg : Option (List Char))
    (env : FuncEnv) : FuncResults :=
  if !env.koExists then
    ⟨false, false, false, [], [], false, false, false⟩
  else
    let loadSuccess := env.insmodExit == 0 && !failureDetected env.dmesgAfterLoad
    let loadDmesg :=
      if env.insmodExit != 0 then env.dmesgAfterLoad ++ recentHdr ++ env.dmesgRecent
      else env.dmesgAfterLoad
    let oopsLoad := oopsInDmesg env.dmesgAfterLoad
    let loadMsgSeen :=
      match expectedLoadMsg with
      | some m => msgFound m env.dmesgAfterLoad
      | none => false
    let r : FuncResults :=
      if loadSuccess && !oopsLoad then
        let unloadSuccess := env.rmmodExit == 0 && !unloadProblemDetected env.dmesgAfterUnload
        let oops := oopsLoad || oopsInDmesg env.dmesgAfterUnload
        let unloadMsgSeen :=
          match expectedUnloadMsg with
          | some m => msgFound m env.dmesgAfterUnload
          | none => false
        ⟨loadSuccess, unloadSuccess, oops, loadDmesg, env.dmesgAfterUnload,
         loadMsgSeen, unloadMsgSeen, false⟩
      else
        ⟨loadSuccess, false, oopsLoad, loadDmesg, [], loadMsgSeen, false, false⟩
    { r with
      testPassed :=
        r.loadSuccess && r.unloadSuccess && !r.kernelOopsDetected &&
          (expectedLoadMsg.isNone || r.loadMsgFound) &&
          (expectedUnloadMsg.isNone || r.unloadMsgFound) }

/-!
## Scoring engine (step 6.5 of `evaluate_char_rw_driver`)

The weighted category model: five categories with weights 0.4 / 0.25 /
0.2 / 0.1 / 0.05; each category score is the arithmetic mean of its
sub-criteria; penalty sub-criteria start at 1.0, subtract a fixed penalty
per regex hit in the raw static-analysis output and are floored at 0.
-/

/-- Pattern of `re.findall(r'linuxkernel-.*:', sa_output, IGNORECASE | MULTILINE)`. -/
def apiMisusePats : List (List Tok) :=
  [[Tok.lit "linuxkernel-".data, Tok.dotStarColon]]

/-- Pattern of `re.findall(r'bugprone-(null-dereference|use-after-free|double-free)|clang-analyzer-security.insecureAPI\.memcpy|memory leak', ...)`;
the unescaped `.` after `security` is a one-character wildcard. -/
def memSafetyPats : List (List Tok) :=
  [[Tok.lit "bugprone-null-dereference".data],
   [Tok.lit "bugprone-use-after-free".data],
   [Tok.lit "bugprone-double-free".data],
   [Tok.lit "clang-analyzer-security".data, Tok.anyChar, Tok.lit "insecureapi.memcpy".data],
   [Tok.lit "memory leak".data]]

/-- Pattern of `re.findall(r'resource leak|unhandled return value', ...)`. -/
def resourceMgmtPats : List (List Tok) :=
  [[Tok.lit "resource leak".data], [Tok.lit "unhandled return value".data]]

/-- Pattern of `re.findall(r'concurrency-.*|race condition', ...)`. -/
def raceCondPats : List (List Tok) :=
  [[Tok.lit "concurrency-".data, Tok.dotStarEOL], [Tok.lit "race condition".data]]

/-- Pattern of `re.findall(r'clang-analyzer-security.insecureAPI|buffer-overflow|bounds check', ...)`. -/
def inputValPats : List (List Tok) :=
  [[Tok.lit "clang-analyzer-security".data, Tok.anyChar, Tok.lit "insecureapi".data],
   [Tok.lit "buffer-overflow".data], [Tok.lit "bounds check".data]]

/-- Pattern of `re.findall(r'error handling|return value ignored', ...)`. -/
def errorHandlingPats : List (List Tok) :=
  [[Tok.lit "error handling".data], [Tok.lit "return value ignored".data]]

/-- `1.0 if flag else 0.0`. -/
def boolScore (b : Bool) : ℚ := if b then 1 else 0

/-- Penalty sub-criterion: start at 1.0, subtract `penalty` per match of
`pats` in the (lower-cased) static-analysis output, floor at 0. -/
def penaltyScore (pats : List (List Tok)) (penalty : ℚ) (saOut : List Char) : ℚ :=
  max 0 (1 - (countPat pats (lower saOut) : ℚ) * penalty)

/-- The `code_quality.style_compliance` sub-criterion: penalties apply
only when checkpatch.pl was found and executable. -/
def styleComplianceScore (cpUsable : Bool) (styleErrors styleWarnings : Nat) : ℚ :=
  max 0 (if cpUsable then
           1 - (styleErrors : ℚ) * 0.01 - (styleWarnings : ℚ) * 0.005
         else 1)

/-- The `code_quality.error_handling` sub-criterion. -/
def errorHandlingScore (compileWarnings : Nat) (saOut : List Char) : ℚ :=
  max 0 (1 - (compileWarnings : ℚ) * 0.005
           - (countPat errorHandlingPats (lower saOut) : ℚ) * 0.02)

/-- Rounding to two decimals (`round(x, 2)`), modelled over `ℚ` as
rounding `100 x` to the nearest integer. -/
def round2 (q : ℚ) : ℚ := ((round (q * 100) : ℤ) : ℚ) / 100

/-- Shallow embedding of the step 6.5 weighted scoring.  Category means:
correctness (compilation, functional pass, kernel-API usage),
security_safety (memory safety, resource management, race conditions,
input validation), code_quality (style compliance, error handling and the
fixed defaults 0.7 and 0.8), performance (fixed 0.75, 0.6, 0.75) and
advanced_features (fixed 0.5, 0.4, 0.9).  The result is
`round(sum(mean_i * weight_i) * 100, 2)`; `overall_score_sum` is the
weighted sum of the category means, before scaling and rounding.  The
penalties derive from the stored raw static-analysis output text, not
from the stored issue count. -/
def overall_score_sum (cpUsable : Bool) (m : DriverMetrics) : ℚ :=
  let saOut := m.static_analysis.output
  let corr := (boolScore m.compilation.success + boolScore m.functionality.testPassed
                + penaltyScore apiMisusePats 0.05 saOut) / 3
  let sec := (penaltyScore memSafetyPats 0.05 saOut
                + penaltyScore resourceMgmtPats 0.05 saOut
                + penaltyScore raceCondPats 0.05 saOut
                + penaltyScore inputValPats 0.05 saOut) / 4
  let cq := (styleComplianceScore cpUsable m.style.errorsCount m.style.warningsCount
                + errorHandlingScore m.compilation.warningsCount saOut
                + 0.7 + 0.8) / 4
  let perf := ((0.75 : ℚ) + 0.6 + 0.75) / 3
  let adv := ((0.5 : ℚ) + 0.4 + 0.9) / 3
  corr * 0.4 + sec * 0.25 + cq * 0.2 + perf * 0.1 + adv * 0.05

/-- The overall score: `round(overall_score_sum * 100, 2)`. -/
def calculate_overall_score (cpUsable : Bool) (m : DriverMetrics) : ℚ :=
  round2 (overall_score_sum cpUsable m * 100)

/-- Batch average of the per-driver overall scores
(`sum(overall_model_scores) / len(overall_model_scores)` in main). -/
def averageScore (ms : List DriverMetrics) : ℚ :=
  (ms.map (·.overallScore)).sum / (ms.length : ℚ)

/-!
## Per-driver evaluator (`evaluate_char_rw_driver`)
-/

/-- Outcomes of the external commands one call of
`evaluate_char_rw_driver` observes.  Exit code `-1` encodes
command-not-found (what `run_command` returns then); the three `koExists`
fields are the three separate `os.path.exists` probes of the `.ko` file
(after make, at the functional-test guard, and inside
`functional_test_driver` via `funcEnv.koExists`), which the script does
not assume to agree. -/
structure EvalEnv where
  bearExit : Int
  bearStdout : List Char
  bearStderr : List Char
  makeExit : Int
  makeStdout : List Char
  makeStderr : List Char
  koExistsAfterMake : Bool
  checkpatchUsable : Bool
  checkpatchStdout : List Char
  checkpatchStderr : List Char
  compileCommandsExists : Bool
  clangTidyStdout : List Char
  clangTidyStderr : List Char
  koExistsAtFuncStep : Bool
  funcEnv : FuncEnv
deriving Repr, DecidableEq

/-- Expected load printk for the `char_rw` driver. -/
def charRwLoadMsg : List Char := "char_rw: device registered".data

/-- Expected unload printk for the `char_rw` driver. -/
def charRwUnloadMsg : List Char := "char_rw: device unregistered".data

/-- Shallow embedding of `evaluate_char_rw_driver`: compile (via bear,
falling back to plain make when bear is absent), parse the compiler
output, decide compilation success (exit 0, no error lines, `.ko`
present), run checkpatch and clang-tidy when available, then functional
testing and the weighted scoring.  Note that the script sets
`metrics["functionality"]["test_attempted"] = True` unconditionally
before the compilation-success guard, so the flag is `true` even when the
functional test is skipped. -/
def evaluate_char_rw_driver (env : EvalEnv) : DriverMetrics :=
  let compilationOutput :=
    if env.bearExit == -1 then env.makeStdout ++ env.makeStderr
    else env.bearStdout ++ env.bearStderr
  let finalMakeExit := if env.bearExit == -1 then env.makeExit else env.bearExit
  let compileErrors := compileErrorsCount compilationOutput
  let compileWarnings := compileWarningsCount compilationOutput
  let compilationSuccess :=
    if finalMakeExit == 0 && compileErrors == 0 then env.koExistsAfterMake
    else false
  let styleWarnings :=
    if env.checkpatchUsable then countLit "WARNING:".data env.checkpatchStdout else 0
  let styleErrors :=
    if env.checkpatchUsable then countLit "ERROR:".data env.checkpatchStdout else 0
  let styleOut :=
    if env.checkpatchUsable then pyStrip (env.checkpatchStdout ++ env.checkpatchStderr)
    else []
  let saIssues :=
    if env.compileCommandsExists then
      clangTidyIssuesCount (env.clangTidyStdout ++ env.clangTidyStderr)
    else 0
  let saOut :=
    if env.compileCommandsExists then pyStrip (env.clangTidyStdout ++ env.clangTidyStderr)
    else []
  let functionality : Functionality :=
    if compilationSuccess && env.koExistsAtFuncStep then
      let fr := functional_test_driver (some charRwLoadMsg) (some charRwUnloadMsg) env.funcEnv
      ⟨true, fr.loadSuccess, fr.unloadSuccess, fr.kernelOopsDetected,
       fr.loadMsgFound, fr.unloadMsgFound, fr.testPassed, fr.loadDmesg, fr.unloadDmesg⟩
    else
      ⟨true, false, false, false, false, false, false, [], []⟩
  let m : DriverMetrics :=
    { filename := "char_rw.c".data
      category := "char_device_basic_rw".data
      compilation := ⟨compilationSuccess, compileErrors, compileWarnings, pyStrip compilationOutput⟩
      style := ⟨styleWarnings, styleErrors, styleOut⟩
      static_analysis := ⟨saIssues, saOut⟩
      functionality := functionality
      overallScore := 0 }
  { m with overallScore := calculate_overall_score env.checkpatchUsable m }

/-!
## Aggregator / suggestion generator (`generate_fine_tuning_suggestions`)
-/

/-- The single positive suggestion emitted when no issues were found. -/
def excellentSuggestion : String :=
  "Excellent! The AI model produced a batch of drivers with no compilation errors, style errors, static analysis issues, or kernel oopses detected by automated tools. Consider increasing scenario complexity or focusing on advanced functional correctness."

/-- Shallow embedding of `generate_fine_tuning_suggestions`.  `cpFound`
models the truthiness of the global `CHECKPATCH_SCRIPT` (the suggestion
branches only test that the path was found, not that it is executable).
Each threshold rule appends its advisory strings in source order. -/
def generate_fine_tuning_suggestions (cpFound : Bool) (rs : List DriverMetrics) :
    List String :=
  if rs.length == 0 then ["No drivers evaluated. Unable to provide suggestions."]
  else
    let total := rs.length
    let failedComp := rs.countP (fun r => !r.compilation.success)
    let totCompErr := (rs.map (·.compilation.errorsCount)).sum
    let totCompWarn := (rs.map (·.compilation.warningsCount)).sum
    let totStyleErr := (rs.map (·.style.errorsCount)).sum
    let totStyleWarn := (rs.map (·.style.warningsCount)).sum
    let totSA := (rs.map (·.static_analysis.issuesCount)).sum
    let failedLoad := rs.countP (fun r =>
      r.functionality.testAttempted && !r.functionality.loadSuccess)
    let failedUnload := rs.countP (fun r =>
      r.functionality.loadSuccess && !r.functionality.unloadSuccess)
    let oopsCount := rs.countP (fun r => r.functionality.kernelOopsDetected)
    let missLoadMsg := rs.countP (fun r =>
      r.functionality.testAttempted && r.functionality.loadSuccess &&
        !r.functionality.loadMsgFound)
    let missUnloadMsg := rs.countP (fun r =>
      r.functionality.testAttempted && r.functionality.unloadSuccess &&
        !r.functionality.unloadMsgFound)
    let compBlock : List String :=
      if failedComp > 0 then
        ["Model frequently generates non-compiling code (" ++ toString failedComp ++
           "/" ++ toString total ++ " drivers failed). Focus on:"] ++
        (if totCompErr > 0 then
           ["  - Resolving " ++ toString totCompErr ++
              " total compilation errors. Pay close attention to undefined symbols, incorrect header includes, and mismatched function arguments for kernel APIs."]
         else []) ++
        (if totCompWarn > 0 then
           ["  - Addressing " ++ toString totCompWarn ++
              " total compilation warnings. Warnings often indicate potential issues that could lead to errors or unexpected behavior."]
         else [])
      else []
    let styleCombined := (rs.map (·.style.output)).flatten
    let styleBlock : List String :=
      if cpFound && (totStyleErr > 0 || totStyleWarn > 0) then
        ["Model needs improvement in Linux kernel coding style (total " ++
           toString totStyleErr ++ " errors, " ++ toString totStyleWarn ++
           " warnings from checkpatch.pl). Focus on:"] ++
        (if containsSub "LINE_LENGTH_80".data styleCombined then
           ["  - Adhering to the 80-character line length limit. Ensure proper line wrapping."]
         else []) ++
        (if containsSub "BRACES".data styleCombined then
           ["  - Correct brace placement (opening brace on same line as function/control statement)."]
         else []) ++
        (if containsSub "SPACING".data (lower styleCombined) ||
            containsSub "indentation".data (lower styleCombined) then
           ["  - Consistent indentation (tabs not spaces) and proper spacing around operators."]
         else []) ++
        ["  - Reviewing variable naming conventions and proper use of 'static' and 'const'."]
      else if !cpFound then
        ["Checkpatch.pl was not found/executable. Consider installing it to get style feedback."]
      else []
    let clangCombined := (rs.map (·.static_analysis.output)).flatten
    let saBlock : List String :=
      if totSA > 0 then
        ["Model generates code with static analysis issues (total " ++ toString totSA ++
           " issues from clang-tidy). Focus on:"] ++
        (if containsSub "unhandled return value".data (lower clangCombined) ||
            containsSub "NULL check".data (lower clangCombined) then
           ["  - Robust error handling: Ensure return values from kernel API calls (e.g., kmalloc, register_chrdev, class_create, device_create) are checked for errors."]
         else []) ++
        (if containsSub "resource leak".data (lower clangCombined) ||
            containsSub "not freed".data (lower clangCombined) then
           ["  - Resource management: Ensure allocated resources (memory, IRQs, GPIOs, devices, /proc entries) are properly freed/released in all exit paths, especially in module_exit and error handlers."]
         else []) ++
        (if containsSub "concurrency".data (lower clangCombined) ||
            containsSub "race condition".data (lower clangCombined) ||
            containsSub "shared data".data (lower clangCombined) then
           ["  - Concurrency safety: Pay attention to race conditions and ensure shared data structures are protected with appropriate locking mechanisms (e.g., mutexes, spinlocks, atomic_t)."]
         else []) ++
        (if containsSub "use after free".data (lower clangCombined) then
           ["  - Memory safety: Avoid use-after-free and double-free issues."]
         else []) ++
        ["  - General code correctness and adherence to kernel API usage patterns."]
      else []
    let oopsBlock : List String :=
      if oopsCount > 0 then
        ["Critical: " ++ toString oopsCount ++
           " kernel oopses/panics detected during functional testing. This is a severe issue. Focus on:",
         "  - Dereferencing NULL pointers or invalid memory addresses.",
         "  - Incorrect use of kernel APIs leading to unexpected behavior or crashes.",
         "  - Race conditions leading to corrupted data structures or invalid state."]
      else []
    let loadBlock : List String :=
      if failedLoad > 0 then
        ["Model frequently generates modules that fail to load (" ++ toString failedLoad ++
           "/" ++ toString total ++
           " drivers). Ensure `module_init` correctly registers all necessary components and handles errors."]
      else []
    let unloadBlock : List String :=
      if failedUnload > 0 then
        ["Model often generates modules that fail to unload (" ++ toString failedUnload ++
           "/" ++ toString total ++
           " drivers). Ensure `module_exit` correctly unregisters and frees all allocated resources."]
      else []
    let msgBlock : List String :=
      if missLoadMsg > 0 || missUnloadMsg > 0 then
        ["Model sometimes misses expected printk messages (" ++ toString missLoadMsg ++
           " load, " ++ toString missUnloadMsg ++
           " unload). **Crucially, ensure appropriate `printk` messages are used for module lifecycle events, matching the expected format like 'char_rw: registered with major' and 'char_rw: unregistered'.**"]
      else []
    let procBlock : List String :=
      if rs.any (fun r =>
           containsSub "proc_create".data r.compilation.output &&
             containsSub "proc_ops".data r.compilation.output) then
        ["Specific: The AI is using an outdated API for '/proc' filesystem entries (e.g., `proc_create`). It needs to use `const struct proc_ops *` instead of `struct file_operations *` for `proc_create` in modern kernels."]
      else []
    let excellentBlock : List String :=
      if failedComp == 0 && totStyleErr == 0 && totSA == 0 && oopsCount == 0 then
        [excellentSuggestion]
      else []
    compBlock ++ styleBlock ++ saBlock ++ oopsBlock ++ loadBlock ++ unloadBlock ++
      msgBlock ++ procBlock ++ excellentBlock

/-!
## Scenario registry and the tag-delimited input parser (`parse_ai_output_file`)
-/

/-- One entry of `SCENARIO_MAP`. -/
structure Scenario where
  tag : List Char
  filename : List Char
  category : List Char
deriving Repr, DecidableEq

/-- The fixed ordered registry of the five expected scenarios. -/
def SCENARIO_MAP : List Scenario :=
  [⟨"char_rw".data, "char_rw.c".data, "char_device_basic_rw".data⟩,
   ⟨"char_ioctl_sync".data, "char_ioctl_sync.c".data, "char_device_ioctl_sync".data⟩,
   ⟨"platform_gpio_irq".data, "platform_gpio_irq.c".data, "platform_device_gpio_irq".data⟩,
   ⟨"char_procfs".data, "char_procfs.c".data, "char_device_procfs".data⟩,
   ⟨"hello_module".data, "hello_module.c".data, "generic_kernel_module".data⟩]

/-- Characters allowed in a scenario tag (`[a-zA-Z0-9_\-]`). -/
def tagChar (c : Char) : Bool := c.isAlpha || c.isDigit || c = '_' || c = '-'

/-- Matcher shared by the two tag regexes
`^\s*//\s*START:([a-zA-Z0-9_\-]+)\s*$` and
`^\s*//\s*END:([a-zA-Z0-9_\-]+)\s*$`: returns the captured tag. -/
def matchTagLine (kw : List Char) (line : List Char) : Option (List Char) :=
  let l1 := line.dropWhile pyIsSpace
  if "//".data.isPrefixOf l1 then
    let l2 := (l1.drop 2).dropWhile pyIsSpace
    if kw.isPrefixOf l2 then
      let l3 := l2.drop kw.length
      let tag := l3.takeWhile tagChar
      let rest := l3.dropWhile tagChar
      if !tag.isEmpty && rest.all pyIsSpace then some tag else none
    else none
  else none

/-- Match of the START tag regex on one line. -/
def startTagMatch (line : List Char) : Option (List Char) :=
  matchTagLine "START:".data line

/-- Match of the END tag regex on one line. -/
def endTagMatch (line : List Char) : Option (List Char) :=
  matchTagLine "END:".data line

/-- One parsed driver block (the
`{'filename':…, 'code_content':…, 'category':…}` dictionary). -/
structure ParsedDriver where
  filename : List Char
  codeContent : List Char
  category : List Char
deriving Repr, DecidableEq

/-- Parser state while scanning the input lines: the currently open tag,
the accumulated code lines of the open block, the next expected registry
index, and the accepted blocks so far. -/
structure ParseState where
  currentTag : Option (List Char)
  currentCode : List (List Char)
  scenarioIndex : Nat
  drivers : List ParsedDriver
deriving Repr, DecidableEq

/-- One step of the line loop of `parse_ai_output_file`.  A START line
opens a fresh block; an END line whose identifier matches the open tag
closes it, accepting it only when the registry still has an expected
entry and the tag equals that entry's tag (otherwise the block is
dropped); an END line whose identifier does not match the open tag (or
with no open block) is skipped; any other line is appended to the open
block, if any. -/
def parseStep (st : ParseState) (line : List Char) : ParseState :=
  match startTagMatch line with
  | some t => { st with currentTag := some t, currentCode := [] }
  | none =>
    match endTagMatch line with
    | some m =>
      match st.currentTag with
      | some t =>
        if t = m then
          match SCENARIO_MAP[st.scenarioIndex]? with
          | some exp =>
            if t = exp.tag then
              { currentTag := none, currentCode := [],
                scenarioIndex := st.scenarioIndex + 1,
                drivers := st.drivers ++
                  [⟨exp.filename, pyStrip st.currentCode.flatten, exp.category⟩] }
            else { st with currentTag := none, currentCode := [] }
          | none => { st with currentTag := none, currentCode := [] }
        else st
      | none => st
    | none =>
      match st.currentTag with
      | some _ => { st with currentCode := st.currentCode ++ [line] }
      | none => st

/-- Shallow embedding of `parse_ai_output_file` over the list of input
lines (as `readlines` returns them, each line keeping its trailing
newline). -/
def parse_ai_output_file (lines : List (List Char)) : List ParsedDriver :=
  (lines.foldl parseStep ⟨none, [], 0, []⟩).drivers

/-!
## Bounds of the individual sub-criteria
-/

/-- Bounds of a boolean sub-criterion. -/
theorem boolScore_bounds (b : Bool) : 0 ≤ boolScore b ∧ boolScore b ≤ 1 := by
  cases b <;> norm_num [boolScore]

/-- Bounds of a penalty sub-criterion (for a non-negative penalty). -/
theorem penaltyScore_bounds (pats : List (List Tok)) (p : ℚ) (hp : 0 ≤ p)
    (s : List Char) : 0 ≤ penaltyScore pats p s ∧ penaltyScore pats p s ≤ 1 := by
  unfold penaltyScore
  refine ⟨le_max_left _ _, max_le (by norm_num) ?_⟩
  have h : (0 : ℚ) ≤ (countPat pats (lower s) : ℚ) * p :=
    mul_nonneg (by positivity) hp
  linarith

/-- Bounds of the style-compliance sub-criterion. -/
theorem styleComplianceScore_bounds (cp : Bool) (e w : Nat) :
    0 ≤ styleComplianceScore cp e w ∧ styleComplianceScore cp e w ≤ 1 := by
  unfold styleComplianceScore
  refine ⟨le_max_left _ _, max_le (by norm_num) ?_⟩
  cases cp
  · simp
  · simp only [if_true]
    have h1 : (0 : ℚ) ≤ (e : ℚ) * 0.01 := by positivity
    have h2 : (0 : ℚ) ≤ (w : ℚ) * 0.005 := by positivity
    linarith

/-- Bounds of the error-handling sub-criterion. -/
theorem errorHandlingScore_bounds (w : Nat) (s : List Char) :
    0 ≤ errorHandlingScore w s ∧ errorHandlingScore w s ≤ 1 := by
  unfold errorHandlingScore
  refine ⟨le_max_left _ _, max_le (by norm_num) ?_⟩
  have h1 : (0 : ℚ) ≤ (w : ℚ) * 0.005 := by positivity
  have h2 : (0 : ℚ) ≤ (countPat errorHandlingPats (lower s) : ℚ) * 0.02 := by positivity
  linarith

/-- Rounding to the nearest integer is monotone over `ℚ`. -/
theorem round_mono_q {x y : ℚ} (h : x ≤ y) : round x ≤ round y := by
  rw [round_eq, round_eq]
  exact Int.floor_mono (by linarith)

/-- Two-decimal rounding keeps values inside `[0, 100]`. -/
theorem round2_bounds {x : ℚ} (h0 : 0 ≤ x) (h1 : x ≤ 100) :
    0 ≤ round2 x ∧ round2 x ≤ 100 := by
  unfold round2
  have hl : (0 : ℤ) ≤ round (x * 100) := by
    have h := round_mono_q (show (0 : ℚ) ≤ x * 100 by nlinarith)
    rwa [round_zero] at h
  have hu : round (x * 100) ≤ 10000 := by
    have h := round_mono_q (show x * 100 ≤ (10000 : ℚ) by nlinarith)
    have hc : round ((10000 : ℚ)) = 10000 := by
      rw [show (10000 : ℚ) = ((10000 : ℤ) : ℚ) by norm_num, round_intCast]
    rwa [hc] at h
  constructor
  · apply div_nonneg _ (by norm_num : (0 : ℚ) ≤ 100)
    exact_mod_cast hl
  · rw [div_le_iff₀ (by norm_num : (0 : ℚ) < 100)]
    have h2 : ((round (x * 100) : ℤ) : ℚ) ≤ 10000 := by exact_mod_cast hu
    linarith

/-- The weighted category sum lies in `[0, 0.95]`. -/
theorem overall_score_sum_bounds (cp : Bool) (m : DriverMetrics) :
    0 ≤ overall_score_sum cp m ∧ overall_score_sum cp m ≤ 0.95 := by
  obtain ⟨h1a, h1b⟩ := boolScore_bounds m.compilation.success
  obtain ⟨h2a, h2b⟩ := boolScore_bounds m.functionality.testPassed
  obtain ⟨h3a, h3b⟩ := penaltyScore_bounds apiMisusePats 0.05 (by norm_num) m.static_analysis.output
  obtain ⟨h4a, h4b⟩ := penaltyScore_bounds memSafetyPats 0.05 (by norm_num) m.static_analysis.output
  obtain ⟨h5a, h5b⟩ := penaltyScore_bounds resourceMgmtPats 0.05 (by norm_num) m.static_analysis.output
  obtain ⟨h6a, h6b⟩ := penaltyScore_bounds raceCondPats 0.05 (by norm_num) m.static_analysis.output
  obtain ⟨h7a, h7b⟩ := penaltyScore_bounds inputValPats 0.05 (by norm_num) m.static_analysis.output
  obtain ⟨h8a, h8b⟩ := styleComplianceScore_bounds cp m.style.errorsCount m.style.warningsCount
  obtain ⟨h9a, h9b⟩ := errorHandlingScore_bounds m.compilation.warningsCount m.static_analysis.output
  unfold overall_score_sum
  dsimp only
  constructor <;> nlinarith

/-!
## Claims
-/

/-- C1: for every DriverMetrics record (any combination of compilation
success flag, error/warning counts, style counts, static-analysis output
text, and functionality results) and either checkpatch availability, the
overall score computed by the weighted scoring step lies between 0 and
100 inclusive. -/
theorem c1_overall_score_bounded (cpUsable : Bool) (m : DriverMetrics) :
    0 ≤ calculate_overall_score cpUsable m ∧ calculate_overall_score cpUsable m ≤ 100 := by
  obtain ⟨h0, h1⟩ := overall_score_sum_bounds cpUsable m
  unfold calculate_overall_score
  exact round2_bounds (by nlinarith) (by nlinarith)

/-- C5: two metrics records identical except for a strictly higher
`static_analysis.issues_count` score no better: the one with more issues
has an overall score ≤ the other's (the scoring step in fact ignores the
stored count entirely, so the scores are equal). -/
theorem c5_more_issues_never_score_higher (cpUsable : Bool) (m : DriverMetrics)
    (n₁ n₂ : Nat) (_h : n₁ < n₂) :
    calculate_overall_score cpUsable { m with static_analysis.issuesCount := n₂ } ≤
      calculate_overall_score cpUsable { m with static_analysis.issuesCount := n₁ } :=
  le_of_eq rfl

/-- Witness for C5 at a concrete record and counts 0 < 1. -/
theorem c5_more_issues_never_score_higher_witness :
    (0 : Nat) < 1 ∧
      calculate_overall_score true
          { filename := "char_rw.c".data, category := "char_device_basic_rw".data,
            compilation := ⟨true, 0, 0, []⟩, style := ⟨0, 0, []⟩,
            static_analysis := ⟨1, []⟩,
            functionality := ⟨true, true, true, false, true, true, true, [], []⟩,
            overallScore := 0 } ≤
        calculate_overall_score true
          { filename := "char_rw.c".data, category := "char_device_basic_rw".data,
            compilation := ⟨true, 0, 0, []⟩, style := ⟨0, 0, []⟩,
            static_analysis := ⟨0, []⟩,
            functionality := ⟨true, true, true, false, true, true, true, [], []⟩,
            overallScore := 0 } :=
  ⟨by norm_num,
   c5_more_issues_never_score_higher true
     { filename := "char_rw.c".data, category := "char_device_basic_rw".data,
       compilation := ⟨true, 0, 0, []⟩, style := ⟨0, 0, []⟩,
       static_analysis := ⟨0, []⟩,
       functionality := ⟨true, true, true, false, true, true, true, [], []⟩,
       overallScore := 0 } 0 1 (by norm_num)⟩

/-- C10: the overall score is exactly the same for any two metrics
records that differ only in `static_analysis.issues_count`: the scoring
step derives its static-analysis penalties solely from pattern matches
over the raw static-analysis output text and never reads the stored
count. -/
theorem c10_score_ignores_issues_count (cpUsable : Bool) (m : DriverMetrics)
    (n₁ n₂ : Nat) :
    calculate_overall_score cpUsable { m with static_analysis.issuesCount := n₁ } =
      calculate_overall_score cpUsable { m with static_analysis.issuesCount := n₂ } :=
  rfl

/-!
Conformance checks of the three findall models against CPython
(`re.MULTILINE | re.IGNORECASE`, verified case by case): note the
line-crossing whitespace skips and the greedy rightmost-colon choice.
-/

example : compileErrorsCount "x:\nerror: y".data = 1 := by decide

example : compileErrorsCount "x:\n\n  \nfatal error: y".data = 1 := by decide

example : compileErrorsCount "error: y".data = 0 := by decide

example : compileErrorsCount "a warning: here error: x".data = 0 := by decide

example : compileErrorsCount "x: error: 1:\nerror: y".data = 1 := by decide

example : compileErrorsCount "x: error: 1:\ny: error: z".data = 2 := by decide

example : compileWarningsCount "foo.c:1:2:\nwarning: x".data = 1 := by decide

example : compileWarningsCount "a:1:2: warning: x\nb:3:4: warning: y".data = 2 := by decide

example : compileWarningsCount "a:12:3x: warning: n".data = 0 := by decide

example : clangTidyIssuesCount "foo:1:2:\nwarning: x".data = 1 := by decide

example : clangTidyIssuesCount "a b:1:2: warning: x".data = 0 := by decide

example : clangTidyIssuesCount "a:1:2:error:3:4:\nerror:1:2: warning: z".data = 1 := by decide

/-- Absence of the colon-marker anywhere is inherited by suffixes. -/
theorem containsErrMarker_suffix {t u : List Char}
    (h : containsErrMarker t = false) (hs : u <:+ t) :
    containsErrMarker u = false := by
  induction t with
  | nil =>
    rw [List.suffix_nil.mp hs]
    exact h
  | cons c rest ih =>
    rw [containsErrMarker, Bool.or_eq_false_iff] at h
    rcases List.suffix_cons_iff.mp hs with h1 | h1
    · rw [h1, containsErrMarker, h.1, h.2, Bool.or_self]
    · exact ih h.2 h1

/-- When no colon of `t` is followed (across whitespace) by the error
marker, the rightmost-colon scan of the compile-error regex fails. -/
theorem scanLineRight_err_none {t : List Char} (h : containsErrMarker t = false) :
    scanLineRight errMatchAt t = none := by
  induction t with
  | nil => rfl
  | cons c rest ih =>
    rw [containsErrMarker, Bool.or_eq_false_iff] at h
    unfold scanLineRight
    split
    · rfl
    · rw [ih h.2]
      show errMatchAt (c :: rest) = none
      unfold errMatchAt
      split
      · rename_i u heq
        rw [show c :: rest = ':' :: u from heq] at h
        rw [if_neg]
        rw [h.1]
        exact Bool.false_ne_true
      · rfl

/-- When no colon of `t` is followed (across whitespace) by the error
marker, the whole findall loop for the compile-error regex counts 0. -/
theorem findall_err_zero (fuel : Nat) (t : List Char)
    (h : containsErrMarker t = false) :
    findallAux tryErrorLine fuel t = 0 := by
  induction fuel generalizing t with
  | zero => cases t <;> rfl
  | succ n ih =>
    cases t with
    | nil => rfl
    | cons c rest =>
      have htl : tryErrorLine (c :: rest) = none := by
        unfold tryErrorLine
        rw [scanLineRight_err_none h]
        split <;> rfl
      simp only [findallAux, htl]
      cases hd : (c :: rest).dropWhile (· ≠ '\n') with
      | nil => rfl
      | cons d r =>
        exact ih r (containsErrMarker_suffix h
          ((List.suffix_cons d r).trans (hd ▸ List.dropWhile_suffix _)))

/-- C9 counterexample: on the output `"x:\nerror: y"` no individual line
matches the error-marker regex (the per-line reading of the claim), yet
the program counts 1: the regex's `\s*` matches the newline, so the
colon ending the first line reaches the `error:` starting the second. -/
theorem c9_cross_line_marker_counterexample :
    ((splitNl "x:\nerror: y".data).all (fun l => !compileErrorLine l) = true) ∧
      compileErrorsCount "x:\nerror: y".data = 1 ∧
      compileErrorsCount "x:\nerror: y".data ≠ 0 :=
  ⟨by decide, by decide, by decide⟩

/-- C9 (amended): the compile-output parsing is total (a function on all
strings) with a non-negative count, and every output string containing
no colon followed — after optional whitespace, which may span line
breaks — by `error:` or `fatal error:` yields a compilation error count
of 0. -/
theorem c9_no_marker_zero_count (s : List Char) :
    0 ≤ compileErrorsCount s ∧
      (containsErrMarker (lower s) = false → compileErrorsCount s = 0) :=
  ⟨Nat.zero_le _, fun h => findall_err_zero s.length (lower s) h⟩

/-- Witness for C9 (amended) on a concrete garbage compiler output with
no error marker. -/
theorem c9_no_marker_zero_count_witness :
    containsErrMarker
        (lower "make: Entering directory\nfoo.c:1:2: warning: unused\n@@ garbage ##".data) = false ∧
      compileErrorsCount "make: Entering directory\nfoo.c:1:2: warning: unused\n@@ garbage ##".data = 0 :=
  ⟨by decide,
   (c9_no_marker_zero_count
       "make: Entering directory\nfoo.c:1:2: warning: unused\n@@ garbage ##".data).2
     (by decide)⟩

/-- Structural fact about `functional_test_driver`: the `test_passed`
field always equals the conjunction the script computes at the end (in
the early-return case both sides are `false`). -/
theorem functional_test_driver_testPassed (elm eum : Option (List Char)) (env : FuncEnv) :
    (functional_test_driver elm eum env).testPassed =
      ((functional_test_driver elm eum env).loadSuccess &&
        (functional_test_driver elm eum env).unloadSuccess &&
        !(functional_test_driver elm eum env).kernelOopsDetected &&
        (elm.isNone || (functional_test_driver elm eum env).loadMsgFound) &&
        (eum.isNone || (functional_test_driver elm eum env).unloadMsgFound)) := by
  unfold functional_test_driver
  split
  · rfl
  · rfl

/-- C2: whenever the functional test reports `test_passed = true`, the
load succeeded, the unload succeeded, no kernel oops was detected, and
each expected message that was specified was found. -/
theorem c2_test_passed_requires_all (elm eum : Option (List Char)) (env : FuncEnv)
    (h : (functional_test_driver elm eum env).testPassed = true) :
    (functional_test_driver elm eum env).loadSuccess = true ∧
      (functional_test_driver elm eum env).unloadSuccess = true ∧
      (functional_test_driver elm eum env).kernelOopsDetected = false ∧
      (elm.isSome = true → (functional_test_driver elm eum env).loadMsgFound = true) ∧
      (eum.isSome = true → (functional_test_driver elm eum env).unloadMsgFound = true) := by
  rw [functional_test_driver_testPassed] at h
  simp only [Bool.and_eq_true, Bool.or_eq_true, Bool.not_eq_true'] at h
  obtain ⟨⟨⟨⟨hl, hu⟩, ho⟩, hm1⟩, hm2⟩ := h
  refine ⟨hl, hu, ho, fun hs => ?_, fun hs => ?_⟩
  · rcases hm1 with h1 | h1
    · cases elm <;> simp_all
    · exact h1
  · rcases hm2 with h1 | h1
    · cases eum <;> simp_all
    · exact h1

/-- Witness for C2: a concrete run in which the test passes with both
expected messages specified and found. -/
theorem c2_test_passed_requires_all_witness :
    (functional_test_driver (some "char_rw: device registered".data)
          (some "char_rw: device unregistered".data)
          ⟨true, 0, [], 0, 0, "char_rw: Device Registered OK".data, [], 0,
           "char_rw: Device Unregistered OK".data⟩).testPassed = true ∧
      (functional_test_driver (some "char_rw: device registered".data)
          (some "char_rw: device unregistered".data)
          ⟨true, 0, [], 0, 0, "char_rw: Device Registered OK".data, [], 0,
           "char_rw: Device Unregistered OK".data⟩).loadSuccess = true ∧
      (functional_test_driver (some "char_rw: device registered".data)
          (some "char_rw: device unregistered".data)
          ⟨true, 0, [], 0, 0, "char_rw: Device Registered OK".data, [], 0,
           "char_rw: Device Unregistered OK".data⟩).unloadSuccess = true ∧
      (functional_test_driver (some "char_rw: device registered".data)
          (some "char_rw: device unregistered".data)
          ⟨true, 0, [], 0, 0, "char_rw: Device Registered OK".data, [], 0,
           "char_rw: Device Unregistered OK".data⟩).kernelOopsDetected = false := by
  have h := c2_test_passed_requires_all (some "char_rw: device registered".data)
    (some "char_rw: device unregistered".data)
    ⟨true, 0, [], 0, 0, "char_rw: Device Registered OK".data, [], 0,
     "char_rw: Device Unregistered OK".data⟩ (by decide)
  exact ⟨by decide, h.1, h.2.1, h.2.2.1⟩

/-- C8: whenever the load failed or a kernel oops shows in the dmesg
snapshot captured after the load, the unload phase never runs: the result
does not depend on the rmmod exit code or the post-unload dmesg, and both
`unload_success` and `test_passed` are false. -/
theorem c8_oops_or_load_failure_skips_unload (elm eum : Option (List Char))
    (env : FuncEnv) (rmE : Int) (dmU : List Char)
    (h : (functional_test_driver elm eum env).loadSuccess = false ∨
      oopsInDmesg env.dmesgAfterLoad = true) :
    functional_test_driver elm eum { env with rmmodExit := rmE, dmesgAfterUnload := dmU } =
        functional_test_driver elm eum env ∧
      (functional_test_driver elm eum env).unloadSuccess = false ∧
      (functional_test_driver elm eum env).testPassed = false := by
  obtain ⟨ko, lse, lso, rpe, ie, dal, dr, re, dau⟩ := env
  dsimp only at h ⊢
  cases ko
  · exact ⟨rfl, rfl, rfl⟩
  · have hflag : (functional_test_driver elm eum ⟨true, lse, lso, rpe, ie, dal, dr, re, dau⟩).loadSuccess
        = (ie == 0 && !failureDetected dal) := by
      unfold functional_test_driver
      split
      · simp_all
      · dsimp only
        split <;> rfl
    have hguard : ((ie == 0 && !failureDetected dal) && !oopsInDmesg dal) = false := by
      rcases h with h1 | h1
      · rw [hflag] at h1
        rw [h1, Bool.false_and]
      · rw [h1]
        simp
    unfold functional_test_driver
    simp only [hguard]
    simp

/-- Witness for C8: a concrete run whose load fails (insmod exit 1);
changing the unload-phase observations does not change the result. -/
theorem c8_oops_or_load_failure_skips_unload_witness :
    functional_test_driver none none
        ⟨true, 0, [], 0, 1, "insmod: ERROR: could not insert module".data, [], 7,
         "some other dmesg".data⟩ =
      functional_test_driver none none
        ⟨true, 0, [], 0, 1, "insmod: ERROR: could not insert module".data, [], 0, []⟩ ∧
      (functional_test_driver none none
        ⟨true, 0, [], 0, 1, "insmod: ERROR: could not insert module".data, [], 0, []⟩).unloadSuccess = false ∧
      (functional_test_driver none none
        ⟨true, 0, [], 0, 1, "insmod: ERROR: could not insert module".data, [], 0, []⟩).testPassed = false :=
  c8_oops_or_load_failure_skips_unload none none
    ⟨true, 0, [], 0, 1, "insmod: ERROR: could not insert module".data, [], 0, []⟩ 7
    "some other dmesg".data (Or.inl (by decide))

/-- The registry-relevant part of an accepted block. -/
def driverKey (d : ParsedDriver) : List Char × List Char := (d.filename, d.category)

/-- The registry-relevant part of a registry entry. -/
def scenarioKey (s : Scenario) : List Char × List Char := (s.filename, s.category)

/-- One parser step preserves the alignment invariant: the accepted
blocks are exactly (filename and category of) the registry prefix up to
the current expected index. -/
theorem parseStep_invariant (st : ParseState) (line : List Char)
    (h1 : st.scenarioIndex ≤ SCENARIO_MAP.length)
    (h2 : st.drivers.map driverKey = (SCENARIO_MAP.take st.scenarioIndex).map scenarioKey) :
    (parseStep st line).scenarioIndex ≤ SCENARIO_MAP.length ∧
      (parseStep st line).drivers.map driverKey =
        (SCENARIO_MAP.take (parseStep st line).scenarioIndex).map scenarioKey := by
  unfold parseStep
  split
  · exact ⟨h1, h2⟩
  · split
    · split
      · split
        · split
          · split
            · rename_i exp hsm htag
              have hlt : st.scenarioIndex < SCENARIO_MAP.length :=
                (List.getElem?_eq_some_iff.mp hsm).1
              refine ⟨hlt, ?_⟩
              rw [List.map_append, h2, List.take_succ, hsm]
              simp [driverKey, scenarioKey]
            · exact ⟨h1, h2⟩
          · exact ⟨h1, h2⟩
        · exact ⟨h1, h2⟩
      · exact ⟨h1, h2⟩
    · split
      · exact ⟨h1, h2⟩
      · exact ⟨h1, h2⟩

/-- The alignment invariant holds after folding the parser over any list
of input lines. -/
theorem parse_fold_invariant (lines : List (List Char)) (st : ParseState)
    (h1 : st.scenarioIndex ≤ SCENARIO_MAP.length)
    (h2 : st.drivers.map driverKey = (SCENARIO_MAP.take st.scenarioIndex).map scenarioKey) :
    (lines.foldl parseStep st).scenarioIndex ≤ SCENARIO_MAP.length ∧
      (lines.foldl parseStep st).drivers.map driverKey =
        (SCENARIO_MAP.take (lines.foldl parseStep st).scenarioIndex).map scenarioKey := by
  induction lines generalizing st with
  | nil => exact ⟨h1, h2⟩
  | cons l ls ih =>
    obtain ⟨g1, g2⟩ := parseStep_invariant st l h1 h2
    exact ih (parseStep st l) g1 g2

/-- C7: the tag-delimited parser accepts blocks only in strict registry
order — the k-th accepted block always carries the filename and category
of the k-th registry entry (so a block is accepted only when its matching
START/END tag equals the expected tag at the current registry index) —
and a block whose tag does not match is dropped without aborting: in the
first concrete input below the first block (consistent START/END tags
`bogus`, not the expected registry tag) is dropped and the following
`char_rw` block is still accepted; in the second, the first block's END
identifier does not match its START identifier, so that block never
enters the result and the parse still accepts the later proper block. -/
theorem c7_parser_strict_registry_order :
    (∀ lines : List (List Char),
        (parse_ai_output_file lines).map driverKey =
          (SCENARIO_MAP.take (parse_ai_output_file lines).length).map scenarioKey) ∧
      parse_ai_output_file
          ["// START:bogus\n".data, "int x;\n".data, "// END:bogus\n".data,
           "// START:char_rw\n".data, "static int a;\n".data, "// END:char_rw\n".data] =
        [⟨"char_rw.c".data, "static int a;".data, "char_device_basic_rw".data⟩] ∧
      parse_ai_output_file
          ["// START:char_rw\n".data, "int y;\n".data, "// END:wrong_tag\n".data,
           "// START:char_rw\n".data, "static int a;\n".data, "// END:char_rw\n".data] =
        [⟨"char_rw.c".data, "static int a;".data, "char_device_basic_rw".data⟩] := by
  refine ⟨?_, by decide, by decide⟩
  · intro lines
    obtain ⟨ha, hb⟩ := parse_fold_invariant lines ⟨none, [], 0, []⟩ (by norm_num) (by simp)
    have hlen : (parse_ai_output_file lines).length =
        (lines.foldl parseStep ⟨none, [], 0, []⟩).scenarioIndex := by
      have hc := congrArg List.length hb
      simp only [List.length_map, List.length_take] at hc
      unfold parse_ai_output_file
      omega
    unfold parse_ai_output_file at hlen ⊢
    rw [hlen]
    exact hb

/-- The compilation-success flag the evaluator stores, written out
explicitly (the `if final_make_return_code == 0 and compile_errors == 0:
if os.path.exists(...)` cascade). -/
theorem evaluate_success_eq (env : EvalEnv) :
    (evaluate_char_rw_driver env).compilation.success =
      (if ((if env.bearExit == -1 then env.makeExit else env.bearExit) == 0 &&
            compileErrorsCount (if env.bearExit == -1 then env.makeStdout ++ env.makeStderr
              else env.bearStdout ++ env.bearStderr) == 0)
        then env.koExistsAfterMake else false) := rfl

/-- C6: compilation is recorded successful only if the effective build
exit code is 0 and the `.ko` build artifact exists afterwards; in
particular exit code 0 with the artifact missing yields
`compilation.success = false`. -/
theorem c6_success_requires_exit0_and_artifact (env : EvalEnv) :
    ((evaluate_char_rw_driver env).compilation.success = true →
        (if env.bearExit == -1 then env.makeExit else env.bearExit) = 0 ∧
          env.koExistsAfterMake = true) ∧
      ((if env.bearExit == -1 then env.makeExit else env.bearExit) = 0 →
        env.koExistsAfterMake = false →
        (evaluate_char_rw_driver env).compilation.success = false) := by
  constructor
  · intro h
    rw [evaluate_success_eq] at h
    generalize hE : (if env.bearExit == -1 then env.makeExit else env.bearExit) = E at h ⊢
    generalize hS : (if env.bearExit == -1 then env.makeStdout ++ env.makeStderr
        else env.bearStdout ++ env.bearStderr) = S at h
    split at h
    · rename_i hc
      rw [Bool.and_eq_true] at hc
      exact ⟨beq_iff_eq.mp hc.1, h⟩
    · exact absurd h (by simp)
  · intro _h0 hko
    rw [evaluate_success_eq]
    generalize (if env.bearExit == -1 then env.makeExit else env.bearExit) = E
    generalize (if env.bearExit == -1 then env.makeStdout ++ env.makeStderr
        else env.bearStdout ++ env.bearStderr) = S
    split
    · exact hko
    · rfl

/-- Witness for C6: a build whose effective exit code is 0 (bear ran and
returned 0, empty output, so no error lines) but whose `.ko` file is
missing is still recorded as a failed compilation. -/
theorem c6_success_requires_exit0_and_artifact_witness :
    (if (0 : Int) == -1 then (0 : Int) else (0 : Int)) = 0 ∧
      (evaluate_char_rw_driver
          ⟨0, [], [], 0, [], [], false, false, [], [], false, [], [], false,
           ⟨false, 0, [], 0, 0, [], [], 0, []⟩⟩).compilation.success = false :=
  ⟨by decide,
   (c6_success_requires_exit0_and_artifact
       ⟨0, [], [], 0, [], [], false, false, [], [], false, [], [], false,
        ⟨false, 0, [], 0, 0, [], [], 0, []⟩⟩).2 (by decide) rfl⟩

/-- C3 (code bug): on a run whose compilation fails (here: `bear` is
absent, the `make` fallback exits 2 with an error line, no `.ko` file is
produced), the functional test is never performed — the metrics record
does not depend on any functional-test observation — yet the stored
`functionality.test_attempted` flag is `true`, because the script sets it
unconditionally before the compilation-success guard.  The spec (and the
script's own summary printer, which reports "NOT ATTEMPTED ... due to
compilation issues" only when the flag is false) expects `false` here. -/
theorem c3_attempted_flag_true_despite_skip :
    (evaluate_char_rw_driver
        ⟨-1, [], "Command not found.".data, 2,
         "make: *** No rule to make target. Stop.".data,
         "cc1: fatal error: char_rw.c: No such file\n".data,
         false, false, [], [], false, [], [], false,
         ⟨false, 0, [], 0, 0, [], [], 0, []⟩⟩).compilation.success = false ∧
      (evaluate_char_rw_driver
        ⟨-1, [], "Command not found.".data, 2,
         "make: *** No rule to make target. Stop.".data,
         "cc1: fatal error: char_rw.c: No such file\n".data,
         false, false, [], [], false, [], [], false,
         ⟨false, 0, [], 0, 0, [], [], 0, []⟩⟩).functionality.testAttempted = true ∧
      (∀ fe : FuncEnv,
        evaluate_char_rw_driver
          ⟨-1, [], "Command not found.".data, 2,
           "make: *** No rule to make target. Stop.".data,
           "cc1: fatal error: char_rw.c: No such file\n".data,
           false, false, [], [], false, [], [], false, fe⟩ =
        evaluate_char_rw_driver
          ⟨-1, [], "Command not found.".data, 2,
           "make: *** No rule to make target. Stop.".data,
           "cc1: fatal error: char_rw.c: No such file\n".data,
           false, false, [], [], false, [], [], false,
           ⟨false, 0, [], 0, 0, [], [], 0, []⟩⟩) :=
  ⟨by decide, rfl, fun fe => rfl⟩

/-- A metrics record of a correctly tagged, successfully compiling,
message-matching driver with zero style and static-analysis issues, all
measured facts perfect and all stored tool outputs free of the issue
patterns the scoring and suggestion steps search for; its stored overall
score is the score the evaluator computes (checkpatch usable). -/
def perfectMetrics (m : DriverMetrics) : Prop :=
  m.compilation.success = true ∧
  m.compilation.warningsCount = 0 ∧
  m.style.errorsCount = 0 ∧
  m.style.warningsCount = 0 ∧
  m.static_analysis.issuesCount = 0 ∧
  m.functionality.testAttempted = true ∧
  m.functionality.loadSuccess = true ∧
  m.functionality.unloadSuccess = true ∧
  m.functionality.kernelOopsDetected = false ∧
  m.functionality.loadMsgFound = true ∧
  m.functionality.unloadMsgFound = true ∧
  m.functionality.testPassed = true ∧
  countPat apiMisusePats (lower m.static_analysis.output) = 0 ∧
  countPat memSafetyPats (lower m.static_analysis.output) = 0 ∧
  countPat resourceMgmtPats (lower m.static_analysis.output) = 0 ∧
  countPat raceCondPats (lower m.static_analysis.output) = 0 ∧
  countPat inputValPats (lower m.static_analysis.output) = 0 ∧
  countPat errorHandlingPats (lower m.static_analysis.output) = 0 ∧
  (containsSub "proc_create".data m.compilation.output = false ∨
    containsSub "proc_ops".data m.compilation.output = false) ∧
  m.overallScore = calculate_overall_score true m

/-- The weighted model's score for a perfect record: the fixed
non-measured sub-criteria defaults cap the score at 92.5, not 100. -/
theorem perfect_score_value (m : DriverMetrics) (h : perfectMetrics m) :
    calculate_overall_score true m = 185 / 2 := by
  obtain ⟨h1, h2, h3, h4, _h5, _h6, _h7, _h8, _h9, _h10, _h11, h12,
    p1, p2, p3, p4, p5, p6, _hpc, _hsc⟩ := h
  unfold calculate_overall_score overall_score_sum
  dsimp only
  unfold penaltyScore styleComplianceScore errorHandlingScore boolScore
  rw [h1, h12, h2, h3, h4, p1, p2, p3, p4, p5, p6]
  norm_num [round2]

/-- A concrete perfect record, with the score the evaluator computes for
it (92.5) stored in `overall_score`. -/
def perfectBatchRecord : DriverMetrics :=
  { filename := "char_rw.c".data, category := "char_device_basic_rw".data,
    compilation := ⟨true, 0, 0, []⟩, style := ⟨0, 0, []⟩,
    static_analysis := ⟨0, []⟩,
    functionality := ⟨true, true, true, false, true, true, true, [], []⟩,
    overallScore := 185 / 2 }

/-- The score of the concrete perfect record is 92.5. -/
theorem perfectBatchRecord_score :
    calculate_overall_score true perfectBatchRecord = 185 / 2 := by
  unfold calculate_overall_score overall_score_sum
  unfold penaltyScore styleComplianceScore errorHandlingScore boolScore
  norm_num [perfectBatchRecord, countPat, countPatAux, lower, round2]

/-- The concrete record satisfies `perfectMetrics`. -/
theorem perfectBatchRecord_perfect : perfectMetrics perfectBatchRecord := by
  refine ⟨rfl, rfl, rfl, rfl, rfl, rfl, rfl, rfl, rfl, rfl, rfl, rfl,
    rfl, rfl, rfl, rfl, rfl, rfl, Or.inl rfl, ?_⟩
  rw [perfectBatchRecord_score]
  rfl

/-- C4 counterexample: a batch of five perfect records (all measured
facts perfect, all outputs free of issue patterns) has an average score
of 92.5 — the fixed non-measured sub-criteria defaults cap the weighted
model, so the average does not reach the claimed maximum of 100. -/
theorem c4_perfect_batch_not_100 :
    perfectMetrics perfectBatchRecord ∧
      averageScore (List.replicate 5 perfectBatchRecord) = 185 / 2 ∧
      ((185 : ℚ) / 2) ≠ 100 := by
  refine ⟨perfectBatchRecord_perfect, ?_, by norm_num⟩
  unfold averageScore
  simp [perfectBatchRecord]
  norm_num

/-- C4 (amended): for a batch of five correctly tagged, successfully
compiling, message-matching drivers with zero style and static-analysis
issues (all measured facts perfect, all outputs free of issue patterns),
the computed `average_score` equals 92.5 — the weighted model's maximum
given the fixed non-measured sub-criteria defaults — and the suggestion
generator emits the single positive
"increase scenario complexity" suggestion. -/
theorem c4_perfect_batch_92_5_single_suggestion (ms : List DriverMetrics)
    (hlen : ms.length = 5) (h : ∀ m ∈ ms, perfectMetrics m) :
    averageScore ms = 185 / 2 ∧
      generate_fine_tuning_suggestions true ms = [excellentSuggestion] := by
  have hscore : ∀ m ∈ ms, m.overallScore = 185 / 2 := by
    intro m hm
    obtain ⟨_, _, _, _, _, _, _, _, _, _, _, _, _, _, _, _, _, _, _, hsc⟩ := h m hm
    rw [hsc]
    exact perfect_score_value m (h m hm)
  constructor
  · unfold averageScore
    have hmap : ms.map (·.overallScore) = List.replicate 5 ((185 : ℚ) / 2) := by
      rw [List.eq_replicate_iff]
      refine ⟨by simp [hlen], ?_⟩
      intro b hb
      obtain ⟨m, hm, hbm⟩ := List.mem_map.mp hb
      rw [← hbm]
      exact hscore m hm
    rw [hmap, hlen]
    norm_num [List.sum_replicate]
  · have hcomp : ms.countP (fun r => !r.compilation.success) = 0 :=
      List.countP_eq_zero.mpr (fun m hm => by
        have := (h m hm).1
        simp [this])
    have hse : (ms.map (·.style.errorsCount)).sum = 0 :=
      List.sum_eq_zero (fun x hx => by
        obtain ⟨m, hm, hxm⟩ := List.mem_map.mp hx
        rw [← hxm]
        exact (h m hm).2.2.1)
    have hsw : (ms.map (·.style.warningsCount)).sum = 0 :=
      List.sum_eq_zero (fun x hx => by
        obtain ⟨m, hm, hxm⟩ := List.mem_map.mp hx
        rw [← hxm]
        exact (h m hm).2.2.2.1)
    have hsa : (ms.map (·.static_analysis.issuesCount)).sum = 0 :=
      List.sum_eq_zero (fun x hx => by
        obtain ⟨m, hm, hxm⟩ := List.mem_map.mp hx
        rw [← hxm]
        exact (h m hm).2.2.2.2.1)
    have hload : ms.countP (fun r =>
        r.functionality.testAttempted && !r.functionality.loadSuccess) = 0 :=
      List.countP_eq_zero.mpr (fun m hm => by
        have := (h m hm).2.2.2.2.2.2.1
        simp [this])
    have hunload : ms.countP (fun r =>
        r.functionality.loadSuccess && !r.functionality.unloadSuccess) = 0 :=
      List.countP_eq_zero.mpr (fun m hm => by
        have := (h m hm).2.2.2.2.2.2.2.1
        simp [this])
    have hoops : ms.countP (fun r => r.functionality.kernelOopsDetected) = 0 :=
      List.countP_eq_zero.mpr (fun m hm => by
        have := (h m hm).2.2.2.2.2.2.2.2.1
        simp [this])
    have hmload : ms.countP (fun r =>
        r.functionality.testAttempted && r.functionality.loadSuccess &&
          !r.functionality.loadMsgFound) = 0 :=
      List.countP_eq_zero.mpr (fun m hm => by
        have := (h m hm).2.2.2.2.2.2.2.2.2.1
        simp [this])
    have hmunload : ms.countP (fun r =>
        r.functionality.testAttempted && r.functionality.unloadSuccess &&
          !r.functionality.unloadMsgFound) = 0 :=
      List.countP_eq_zero.mpr (fun m hm => by
        have := (h m hm).2.2.2.2.2.2.2.2.2.2.1
        simp [this])
    have hproc : ms.any (fun r =>
        containsSub "proc_create".data r.compilation.output &&
          containsSub "proc_ops".data r.compilation.output) = false := by
      rw [List.any_eq_false]
      intro m hm
      rcases (h m hm).2.2.2.2.2.2.2.2.2.2.2.2.2.2.2.2.2.2.1 with hp | hp <;>
        simp [hp]
    unfold generate_fine_tuning_suggestions
    rw [if_neg (by simp [hlen])]
    simp only [hcomp, hse, hsw, hsa, hload, hunload, hoops, hmload, hmunload, hproc]
    norm_num

/-- Witness for C4 (amended) at the concrete five-record perfect batch. -/
theorem c4_perfect_batch_92_5_single_suggestion_witness :
    averageScore (List.replicate 5 perfectBatchRecord) = 185 / 2 ∧
      generate_fine_tuning_suggestions true (List.replicate 5 perfectBatchRecord) =
        [excellentSuggestion] :=
  c4_perfect_batch_92_5_single_suggestion (List.replicate 5 perfectBatchRecord)
    (by simp)
    (fun m hm => by
      rw [List.eq_of_mem_replicate hm]
      exact perfectBatchRecord_perfect)

end DriverEval
